import Mathlib

/-!
Verification of the content retrieval and recommendation engine of a
Django blog application (`blog/models.py`, `blog/views.py`, `blog/forms.py`,
`blog/feeds.py`, `blog/sitemaps.py`).

The embedding is shallow: querysets become Lean lists, the ORM filters
become list filters, SQL `ORDER BY` becomes an insertion sort by the
corresponding lexicographic key, and Django's `Paginator` becomes an
explicit function mirroring `validate_number` / `page` together with the
`try/except` dispatch written in the `post_list` view.
-/

namespace Blog

/-- Publication status of a post, modelling `Post.Status` in `models.py`
(choices `DRAFT = 'DF'` and `PUBLISHED = 'PB'`). -/
inductive Status where
  | draft
  | published
deriving DecidableEq, Repr

/-- A publish timestamp. The view `post_detail` filters on the calendar
components `publish__year`, `publish__month`, `publish__day`, while the
`Meta.ordering = ['-publish']` orders by the full timestamp, so we keep the
calendar fields explicit plus a sub-day component `minute`. -/
structure DateTime where
  year : Nat
  month : Nat
  day : Nat
  minute : Nat
deriving DecidableEq, Repr

/-- Lexicographic comparison key of a timestamp: later means
lexicographically larger on (year, month, day, minute). -/
def DateTime.key (d : DateTime) : Nat ×ₗ (Nat ×ₗ (Nat ×ₗ Nat)) :=
  toLex (d.year, toLex (d.month, toLex (d.day, d.minute)))

/-- Chronological order on timestamps. -/
def DateTime.le (a b : DateTime) : Prop := a.key ≤ b.key

instance (a b : DateTime) : Decidable (DateTime.le a b) :=
  inferInstanceAs (Decidable (a.key ≤ b.key))

/-- Strict chronological order on timestamps. -/
def DateTime.lt (a b : DateTime) : Prop := a.key < b.key

instance (a b : DateTime) : Decidable (DateTime.lt a b) :=
  inferInstanceAs (Decidable (a.key < b.key))

/-- A blog post record, modelling the `Post` model of `models.py`.  Tags are
the set of taggit tag ids attached to the post; the taggit through table has
a uniqueness constraint on (object, tag), so a well-formed record has a
duplicate-free tag list (stated as a hypothesis where it matters). -/
structure Post where
  id : Nat
  title : String
  slug : String
  author_id : Nat
  body : String
  publish : DateTime
  created : Nat
  updated : Nat
  status : Status
  tags : List Nat
deriving DecidableEq, Repr

/-- The published-only queryset of `PublishedManager.get_queryset` in
`models.py`: `super().get_queryset().filter(status=Post.Status.PUBLISHED)`.
On a list store this is the order-preserving filter keeping exactly the
published posts. -/
def get_queryset (store : List Post) : List Post :=
  store.filter (fun p => decide (p.status = Status.published))

/-- Descending publish-date order used by `Post.Meta.ordering = ['-publish']`:
`p` comes before `q` when `p` is at least as recent. -/
def pubDescRel (p q : Post) : Prop := DateTime.le q.publish p.publish

instance (p q : Post) : Decidable (pubDescRel p q) :=
  inferInstanceAs (Decidable (DateTime.le q.publish p.publish))

instance : IsTotal Post pubDescRel :=
  ⟨fun p q => (le_total q.publish.key p.publish.key).imp id id⟩

instance : IsTrans Post pubDescRel :=
  ⟨fun _ _ _ hab hbc => le_trans hbc hab⟩

/-- The default queryset of the published manager as the views observe it:
`Post.published.all()`, i.e. the visible posts sorted by the model's default
ordering `['-publish']` (most recent first). -/
def publishedAll (store : List Post) : List Post :=
  List.insertionSort pubDescRel (get_queryset store)

/-! ### Paginator (Django `core.paginator` as used by `post_list`) -/

namespace Paginator

/-- Outcome of `Paginator.validate_number`: the two exception classes the
`post_list` view catches. -/
inductive PageError where
  | notAnInteger
  | emptyPage
deriving DecidableEq, Repr

/-- Django `Paginator.num_pages` with `allow_empty_first_page=True`:
`ceil(max(1, count) / per_page)`, so at least one page even when empty. -/
def num_pages (count per : Nat) : Nat :=
  (max 1 count + per - 1) / per

/-- Django `Paginator.validate_number`.  The requested page arrives from
`request.GET` and is fed through Python `int()`; a value that does not parse
as an integer is modelled as `none` and raises `PageNotAnInteger`, a parsed
integer below 1 or beyond the last page raises `EmptyPage` (the `number == 1`
escape for an empty first page is kept from the source). -/
def validate_number (count per : Nat) (req : Option Int) : Except PageError Nat :=
  match req with
  | none => .error .notAnInteger
  | some i =>
    if i < 1 then .error .emptyPage
    else if (num_pages count per : Int) < i then
      if i = 1 then .ok 1 else .error .emptyPage
    else .ok i.toNat

/-- A page result: Django `Page` with the fields the templates consume
(`object_list`, `number`, `paginator.num_pages`, `has_next`,
`has_previous`). -/
structure PageData (α : Type) where
  object_list : List α
  number : Nat
  num_pages : Nat
  has_next : Bool
  has_previous : Bool
deriving DecidableEq, Repr

/-- Django `Paginator.page(number)` on a validated 1-based page number:
slice `[(number-1)*per, number*per)` of the sequence. -/
def page (seq : List α) (per : Nat) (n : Nat) : PageData α :=
  { object_list := (seq.drop ((n - 1) * per)).take per
    number := n
    num_pages := num_pages seq.length per
    has_next := decide (n < num_pages seq.length per)
    has_previous := decide (1 < n) }

/-- The pagination dispatch written in the `post_list` view: try the
requested page, fall back to page 1 on `PageNotAnInteger` and to the last
page on `EmptyPage`. -/
def getPage (seq : List α) (per : Nat) (req : Option Int) : PageData α :=
  match validate_number seq.length per req with
  | .ok n => page seq per n
  | .error .notAnInteger => page seq per 1
  | .error .emptyPage => page seq per (num_pages seq.length per)

theorem one_le_num_pages (count per : Nat) (hper : 0 < per) :
    1 ≤ num_pages count per := by
  unfold num_pages
  have h1 : 1 ≤ max 1 count := le_max_left 1 count
  have : per ≤ max 1 count + per - 1 := by omega
  exact Nat.le_div_iff_mul_le hper |>.mpr (by omega)

end Paginator

/-! ### The `post_list` view -/

/-- The queryset assembled by `post_list` in `views.py`: start from
`Post.published.all()`, and when a tag filter is active keep only the posts
carrying that tag (`post_list.filter(tags__in=[tag])`; the tag slug has
already been resolved to a tag id by `get_object_or_404(Tag, slug=...)`,
and with a single tag the join produces at most one row per post). -/
def post_list_queryset (store : List Post) (tagFilter : Option Nat) : List Post :=
  match tagFilter with
  | none => publishedAll store
  | some tid => (publishedAll store).filter (fun p => p.tags.contains tid)

/-- The `post_list` view: paginate the (optionally tag-filtered) published
posts three per page, with the view's `try/except` page coercion. -/
def post_list (store : List Post) (tagFilter : Option Nat) (pageReq : Option Int) :
    Paginator.PageData Post :=
  Paginator.getPage (post_list_queryset store tagFilter) 3 pageReq

/-! ### The `post_search` view -/

/-- Whitespace stripping as Python `str.strip()` performs it on form input
(Django `CharField` strips by default): drop leading and trailing
whitespace characters. -/
def strip (s : String) : String :=
  ⟨((s.data.dropWhile Char.isWhitespace).reverse.dropWhile Char.isWhitespace).reverse⟩

/-- The `post_search` view of `views.py`, with the PostgreSQL full-text
match left abstract: `searchMatch q p` stands for "the search vector built
from `p.title` and `p.body` is matched by query `q`".  `SearchForm.query`
is a required
`CharField`, so Django strips the raw value and rejects an empty result
(`form.is_valid()` is false), leaving `results = []`; the query parameter
being absent from `request.GET` also leaves `results = []`. -/
def post_search (searchMatch : String → Post → Bool) (store : List Post)
    (queryParam : Option String) : List Post :=
  match queryParam with
  | none => []
  | some raw =>
    let query := strip raw
    if query = "" then []
    else (publishedAll store).filter (searchMatch query)

/-! ### Similar posts (the recommendation block of `post_detail`) -/

/-- The `same_tags` value annotated in `post_detail`:
`Count('tags')` over the join rows restricted by
`filter(tags__in=post_tags_ids)`, i.e. the number of the candidate's tags
that also belong to the detail post's tag list. -/
def sameTags (a p : Post) : Nat :=
  (p.tags.filter (fun t => a.tags.contains t)).length

/-- Sort key of `order_by('-same_tags', '-publish')`: shared-tag count
first, then the publish timestamp, both descending. -/
def simKey (a p : Post) : Nat ×ₗ (Nat ×ₗ (Nat ×ₗ (Nat ×ₗ Nat))) :=
  toLex (sameTags a p, (p.publish.key : Nat ×ₗ (Nat ×ₗ (Nat ×ₗ Nat))))

/-- Descending order on `simKey`: `p` comes before `q` when its annotated
key is at least as large. -/
def simRel (a : Post) (p q : Post) : Prop := simKey a q ≤ simKey a p

instance (a p q : Post) : Decidable (simRel a p q) :=
  inferInstanceAs (Decidable (simKey a q ≤ simKey a p))

instance (a : Post) : IsTotal Post (simRel a) :=
  ⟨fun p q => (le_total (simKey a q) (simKey a p)).imp id id⟩

instance (a : Post) : IsTrans Post (simRel a) :=
  ⟨fun _ _ _ hab hbc => le_trans hbc hab⟩

/-- The similar-posts queryset of `post_detail`:
`Post.published.filter(tags__in=post_tags_ids).exclude(id=post.id)`
annotated with `same_tags=Count('tags')`, ordered by
`('-same_tags', '-publish')` and sliced to the top 4. -/
def similar_posts (store : List Post) (a : Post) : List Post :=
  (List.insertionSort (simRel a)
    ((get_queryset store).filter
      (fun p => p.tags.any (fun t => a.tags.contains t) && !(p.id == a.id)))).take 4

/-- Modelled from the spec: shared-tag count as the size of the set
intersection of the two articles' tag sets (each shared tag counted once). -/
def sharedTagCount (a p : Post) : Nat :=
  (a.tags.toFinset ∩ p.tags.toFinset).card

/-- Modelled from the spec: sort key "shared-tag count descending, then
publishDate descending". -/
def specSimKey (a p : Post) : Nat ×ₗ (Nat ×ₗ (Nat ×ₗ (Nat ×ₗ Nat))) :=
  toLex (sharedTagCount a p, (p.publish.key : Nat ×ₗ (Nat ×ₗ (Nat ×ₗ Nat))))

/-- Modelled from the spec: descending order on the spec's sort key. -/
def specSimRel (a : Post) (p q : Post) : Prop := specSimKey a q ≤ specSimKey a p

instance (a p q : Post) : Decidable (specSimRel a p q) :=
  inferInstanceAs (Decidable (specSimKey a q ≤ specSimKey a p))

/-- Modelled from the spec (`similarTo(article, limit=4)` in §4.3): from
the visible articles other than the article itself keep those whose tag-set
intersection with the article's tags is non-empty, sort by shared-tag count
descending then publish date descending, and return the first four. -/
def similarTo (store : List Post) (a : Post) : List Post :=
  (List.insertionSort (specSimRel a)
    ((get_queryset store).filter
      (fun p => decide (p ≠ a) && decide (sharedTagCount a p ≠ 0)))).take 4

/-! ### The `post_detail` lookup -/

/-- The address part of the `post_detail` lookup: slug plus calendar
components of the publish date, without the status condition. -/
def detailMatch (y m d : Nat) (slug : String) (p : Post) : Prop :=
  p.slug = slug ∧ p.publish.year = y ∧ p.publish.month = m ∧ p.publish.day = d

instance (y m d : Nat) (slug : String) (p : Post) : Decidable (detailMatch y m d slug p) :=
  inferInstanceAs (Decidable (_ ∧ _ ∧ _ ∧ _))

/-- The `get_object_or_404` lookup of `post_detail` in `views.py`: the
first post with `status=PUBLISHED` at the given slug and publish date, or
`none` (rendered as a 404) when there is no such post. -/
def post_detail_lookup (store : List Post) (y m d : Nat) (slug : String) : Option Post :=
  store.find? (fun p => decide (p.status = Status.published ∧ detailMatch y m d slug p))

/-! ### The `post_comment` view -/

/-- The fields of `CommentForm` (`forms.py`: `fields = ['name', 'email',
'body']`) as submitted. -/
structure CommentData where
  name : String
  email : String
  body : String
deriving DecidableEq, Repr

/-- A persisted comment record (`Comment` in `models.py`), with its owning
post reference filled in by the view before saving. -/
structure Comment where
  post_id : Nat
  name : String
  email : String
  body : String
  active : Bool
deriving DecidableEq, Repr

/-- Validation of `CommentForm`, from the model fields behind the
`ModelForm`: `name` is a required `CharField(max_length=80)`, `email` a
required `EmailField` (its format predicate is Django's and is passed in as
`emailOk`), `body` a required `TextField`.  Django strips character input
before checking `required`. -/
def commentFormValid (emailOk : String → Bool) (d : CommentData) : Bool :=
  decide (strip d.name ≠ "") && decide ((strip d.name).length ≤ 80) &&
    decide (strip d.email ≠ "") && emailOk (strip d.email) &&
    decide (strip d.body ≠ "")

/-- The store the comment view touches: the posts plus the persisted
comments. -/
structure Store where
  posts : List Post
  comments : List Comment
deriving DecidableEq, Repr

/-- Outcome of the `post_comment` view: a 404 from `get_object_or_404`, a
re-rendered invalid form, or a created comment. -/
inductive CommentOutcome where
  | notFound
  | invalid
  | created (c : Comment)
deriving DecidableEq, Repr

/-- The `post_comment` view of `views.py`: resolve the post by
`get_object_or_404(Post, id=post_id, status=Post.Status.PUBLISHED)`; then
validate the bound `CommentForm` and, only when it is valid, save a comment
attached to that post.  Returns the outcome together with the store after
the request. -/
def post_comment (emailOk : String → Bool) (st : Store) (postId : Nat)
    (d : CommentData) : CommentOutcome × Store :=
  match st.posts.find? (fun p => decide (p.id = postId ∧ p.status = Status.published)) with
  | none => (.notFound, st)
  | some post =>
    if commentFormValid emailOk d then
      let c : Comment :=
        { post_id := post.id
          name := strip d.name
          email := strip d.email
          body := strip d.body
          active := true }
      (.created c, { st with comments := st.comments ++ [c] })
    else (.invalid, st)

/-! ### Feed and sitemap (`feeds.py`, `sitemaps.py`) -/

/-- The feed title of `LatestPostsFeed` in `feeds.py`. -/
def feedTitle : String := "My blog"

/-- The feed items of `LatestPostsFeed.items`:
`Post.published.all()[:5]`, the five most recent published posts under the
model's default descending-publish ordering. -/
def feedItems (store : List Post) : List Post :=
  (publishedAll store).take 5

/-- An individual feed item title (`LatestPostsFeed.item_title`). -/
def feedItemTitle (p : Post) : String := p.title

/-- An individual feed item description
(`LatestPostsFeed.item_description`): the markdown body rendered to HTML and
word-truncated at a 30-word boundary keeping tags balanced.  The markdown
renderer and the HTML-safe truncation are external collaborators and are
passed in as functions. -/
def feedItemDescription (render : String → String) (trunc : String → Nat → String)
    (p : Post) : String :=
  trunc (render p.body) 30

/-- An individual feed item publication date
(`LatestPostsFeed.item_pubdate`). -/
def feedItemPubdate (p : Post) : DateTime := p.publish

/-- The sitemap items of `PostSitemap.items` in `sitemaps.py`:
`Post.published.all()`. -/
def sitemapItems (store : List Post) : List Post :=
  publishedAll store

/-- The sitemap last-modified value of `PostSitemap.lastmod`. -/
def sitemapLastmod (p : Post) : Nat := p.updated

/-- The canonical URL-construction inputs of `Post.get_absolute_url`. -/
def sitemapLocation (p : Post) : Nat × Nat × Nat × String :=
  (p.publish.year, p.publish.month, p.publish.day, p.slug)

/-! ### Demonstration store (the scenario of spec §8: P1/P2/P3) -/

/-- Published article with tags 1 and 2, published 2024-01-03. -/
def A1 : Post :=
  { id := 1, title := "P1", slug := "p1", author_id := 1, body := "go and rust",
    publish := ⟨2024, 1, 3, 0⟩, created := 0, updated := 10, status := .published,
    tags := [1, 2] }

/-- Published article with tag 1, published 2024-01-02. -/
def A2 : Post :=
  { id := 2, title := "P2", slug := "p2", author_id := 1, body := "go",
    publish := ⟨2024, 1, 2, 0⟩, created := 0, updated := 11, status := .published,
    tags := [1] }

/-- Draft article with tag 2, published 2024-01-01. -/
def A3 : Post :=
  { id := 3, title := "P3", slug := "p3", author_id := 1, body := "rust",
    publish := ⟨2024, 1, 1, 0⟩, created := 0, updated := 12, status := .draft,
    tags := [2] }

/-- The concrete article store used by the witnesses. -/
def demoStore : List Post := [A1, A2, A3]

/-! ### Helper lemmas -/

theorem mem_get_queryset {store : List Post} {p : Post} :
    p ∈ get_queryset store ↔ p ∈ store ∧ p.status = Status.published := by
  simp [get_queryset]

theorem mem_publishedAll {store : List Post} {p : Post} :
    p ∈ publishedAll store ↔ p ∈ get_queryset store :=
  List.mem_insertionSort pubDescRel

theorem not_mem_get_queryset_of_draft {store : List Post} {p : Post}
    (hd : p.status = Status.draft) : p ∉ get_queryset store := by
  intro h
  rw [mem_get_queryset] at h
  rw [hd] at h
  exact absurd h.2 (by simp)

theorem Paginator.page_object_list_subset (seq : List α) (per n : Nat) :
    (Paginator.page seq per n).object_list ⊆ seq :=
  fun _ hx => List.drop_subset _ _ (List.take_subset _ _ hx)

theorem Paginator.getPage_object_list_subset (seq : List α) (per : Nat) (req : Option Int) :
    (Paginator.getPage seq per req).object_list ⊆ seq := by
  unfold Paginator.getPage
  rcases Paginator.validate_number seq.length per req with e | n
  · rcases e with _ | _ <;> exact Paginator.page_object_list_subset _ _ _
  · exact Paginator.page_object_list_subset _ _ _

theorem post_list_queryset_subset (store : List Post) (tagFilter : Option Nat) :
    post_list_queryset store tagFilter ⊆ publishedAll store := by
  rcases tagFilter with _ | tid
  · exact fun _ h => h
  · intro x h
    simp only [post_list_queryset] at h
    exact List.mem_of_mem_filter h

/-! ### C9: idempotence of the visibility filter -/

/-- C9: the visibility filter is idempotent — filtering an already filtered
sequence changes nothing: `visible(visible(seq)) == visible(seq)`. -/
theorem get_queryset_idempotent (seq : List Post) :
    get_queryset (get_queryset seq) = get_queryset seq := by
  apply List.filter_eq_self.mpr
  intro p hp
  exact (List.mem_filter.mp hp).2

/-! ### C7: the visibility filter keeps exactly the published posts -/

/-- C7: `visible(seq)` retains exactly the posts whose status is Published,
preserves the input ordering (it is a sublist of the input), and keeps a
Published post even when its publish date lies in the future of any chosen
"now" — visibility depends on the status alone. -/
theorem get_queryset_exact (seq : List Post) :
    (∀ p, p ∈ get_queryset seq ↔ p ∈ seq ∧ p.status = Status.published) ∧
    List.Sublist (get_queryset seq) seq ∧
    (∀ now p, p ∈ seq → p.status = Status.published → DateTime.lt now p.publish →
      p ∈ get_queryset seq) := by
  refine ⟨fun p => mem_get_queryset, List.filter_sublist seq, ?_⟩
  intro _ p hp hs _
  exact mem_get_queryset.mpr ⟨hp, hs⟩

/-- Witness for C7 at the concrete store: the published article `A1` is
kept by the filter even though its publish date 2024-01-03 is in the future
of "now" = 2020-01-01. -/
theorem get_queryset_exact_witness : A1 ∈ get_queryset demoStore :=
  (get_queryset_exact demoStore).2.2 ⟨2020, 1, 1, 0⟩ A1 (by decide) rfl (by decide)

/-! ### C3: a non-integer page request is served page 1 -/

/-- C3: paginating any sequence with page size 3 and a requested page that
does not parse as an integer (modelled as `none`, the `PageNotAnInteger`
branch) yields exactly the same page as requesting page 1, and no error
escapes to the caller. -/
theorem getPage_not_an_integer (seq : List α) :
    Paginator.getPage seq 3 none = Paginator.getPage seq 3 (some 1) := by
  have h1 : 1 ≤ Paginator.num_pages seq.length 3 :=
    Paginator.one_le_num_pages seq.length 3 (by omega)
  have hv : Paginator.validate_number seq.length 3 (some 1) = .ok 1 := by
    simp only [Paginator.validate_number]
    rw [if_neg (by omega), if_neg (by omega)]
    rfl
  unfold Paginator.getPage
  rw [hv]
  rfl

/-! ### C4: an out-of-range page request is served the last page -/

/-- C4: paginating any sequence with page size 3 and a requested integer
page beyond the last page — including zero and negative numbers — yields the
last page, whose `has_next` is false; no error escapes to the caller. -/
theorem getPage_out_of_range (seq : List α) (i : Int)
    (h : i ≤ 0 ∨ (Paginator.num_pages seq.length 3 : Int) < i) :
    Paginator.getPage seq 3 (some i) =
      Paginator.page seq 3 (Paginator.num_pages seq.length 3) ∧
    (Paginator.getPage seq 3 (some i)).has_next = false := by
  have h1 : 1 ≤ Paginator.num_pages seq.length 3 :=
    Paginator.one_le_num_pages seq.length 3 (by omega)
  have hv : Paginator.validate_number seq.length 3 (some i) = .error .emptyPage := by
    simp only [Paginator.validate_number]
    rcases h with hle | hgt
    · rw [if_pos (by omega)]
    · rw [if_neg (by omega), if_pos hgt, if_neg (by omega)]
  have heq : Paginator.getPage seq 3 (some i) =
      Paginator.page seq 3 (Paginator.num_pages seq.length 3) := by
    unfold Paginator.getPage
    rw [hv]
  refine ⟨heq, ?_⟩
  rw [heq]
  simp [Paginator.page]

/-- Witness for C4: requesting page 9999 of a four-element sequence paged
three per page returns the last page (page 2) with `has_next = false`. -/
theorem getPage_out_of_range_witness :
    Paginator.getPage ([10, 20, 30, 40] : List Nat) 3 (some 9999) =
      Paginator.page [10, 20, 30, 40] 3
        (Paginator.num_pages (List.length [10, 20, 30, 40]) 3) ∧
    (Paginator.getPage ([10, 20, 30, 40] : List Nat) 3 (some 9999)).has_next = false :=
  getPage_out_of_range [10, 20, 30, 40] 9999 (Or.inr (by decide))

/-! ### C1: a draft post is never served by any public surface -/

theorem post_search_subset (sm : String → Post → Bool) (store : List Post)
    (qp : Option String) : post_search sm store qp ⊆ publishedAll store := by
  rcases qp with _ | raw
  · intro x hx
    simp [post_search] at hx
  · intro x hx
    simp only [post_search] at hx
    by_cases hq : strip raw = ""
    · rw [if_pos hq] at hx
      simp at hx
    · rw [if_neg hq] at hx
      exact List.mem_of_mem_filter hx

theorem similar_posts_subset (store : List Post) (a : Post) :
    similar_posts store a ⊆ get_queryset store := by
  intro x hx
  have h1 := List.take_subset 4 _ hx
  have h2 := (List.mem_insertionSort (simRel a)).mp h1
  exact List.mem_of_mem_filter h2

/-- C1: a post whose status is Draft never appears in the paginated
listings (with or without a tag filter), in full-text search results for
any query and any match predicate, in the tag-similarity results of any
post, in the syndication feed items, or in the sitemap items, whatever its
tags or text content. -/
theorem draft_never_served (store : List Post) (p : Post)
    (hd : p.status = Status.draft) :
    (∀ tagFilter pageReq, p ∉ (post_list store tagFilter pageReq).object_list) ∧
    (∀ sm qp, p ∉ post_search sm store qp) ∧
    (∀ a, p ∉ similar_posts store a) ∧
    p ∉ feedItems store ∧
    p ∉ sitemapItems store := by
  have hq : p ∉ get_queryset store := not_mem_get_queryset_of_draft hd
  have hpa : p ∉ publishedAll store := fun h => hq (mem_publishedAll.mp h)
  refine ⟨?_, ?_, ?_, ?_, ?_⟩
  · intro tf pr h
    exact hpa (post_list_queryset_subset store tf
      (Paginator.getPage_object_list_subset (post_list_queryset store tf) 3 pr h))
  · intro sm qp h
    exact hpa (post_search_subset sm store qp h)
  · intro a h
    exact hq (similar_posts_subset store a h)
  · intro h
    exact hpa (List.take_subset 5 _ h)
  · intro h
    exact hpa h

/-- Witness for C1: the draft article `A3` of the demonstration store is
absent from an untagged listing page, from a search that matches
everything, from the posts similar to `A1`, from the feed items and from
the sitemap items. -/
theorem draft_never_served_witness :
    A3 ∉ (post_list demoStore none none).object_list ∧
    A3 ∉ post_search (fun _ _ => true) demoStore (some "rust") ∧
    A3 ∉ similar_posts demoStore A1 ∧
    A3 ∉ feedItems demoStore ∧
    A3 ∉ sitemapItems demoStore := by
  have h := draft_never_served demoStore A3 rfl
  exact ⟨h.1 none none, h.2.1 _ _, h.2.2.1 A1, h.2.2.2.1, h.2.2.2.2⟩

/-! ### C6: a blank search query yields an empty result -/

/-- C6: a submitted query that is empty or whitespace-only fails the
required-field validation of `SearchForm`, so the search returns the empty
result list and no error is raised (the view function is total). -/
theorem post_search_blank (sm : String → Post → Bool) (store : List Post)
    (q : String) (h : strip q = "") :
    post_search sm store (some q) = [] := by
  simp [post_search, h]

/-- Witness for C6: searching a whitespace-only query against the
demonstration store with an everything-matching predicate yields no
results. -/
theorem post_search_blank_witness :
    post_search (fun _ _ => true) demoStore (some "   ") = [] :=
  post_search_blank (fun _ _ => true) demoStore "   " (by decide)

/-! ### C10: a draft post is unreachable through its canonical URL -/

/-- C10: when the unique post matching a detail address (year, month, day,
slug) has status Draft, the detail lookup returns `none` (a 404), exactly
as it does when no post exists at that address at all: the Published
condition is part of the lookup itself. -/
theorem post_detail_draft_not_found (store : List Post) (y m d : Nat) (s : String)
    (p : Post) (_hmem : p ∈ store) (_hmatch : detailMatch y m d s p)
    (hdraft : p.status = Status.draft)
    (huniq : ∀ q ∈ store, detailMatch y m d s q → q = p) :
    post_detail_lookup store y m d s = none ∧
    post_detail_lookup (store.filter (fun q => !decide (detailMatch y m d s q))) y m d s
      = none := by
  constructor
  · apply List.find?_eq_none.mpr
    intro q hq hpred
    have hq2 := of_decide_eq_true hpred
    have hqp : q = p := huniq q hq hq2.2
    rw [hqp, hdraft] at hq2
    exact absurd hq2.1 (by simp)
  · apply List.find?_eq_none.mpr
    intro q hq hpred
    have hq2 := of_decide_eq_true hpred
    have hnot := (List.mem_filter.mp hq).2
    rw [Bool.not_eq_eq_eq_not, Bool.not_true, decide_eq_false_iff_not] at hnot
    exact hnot hq2.2

/-- Witness for C10: the draft article `A3` is the unique post at address
2024-01-01 / "p3" in the demonstration store, and the detail lookup serves
a 404 for that address, just as it does once every post at that address is
removed. -/
theorem post_detail_draft_not_found_witness :
    post_detail_lookup demoStore 2024 1 1 "p3" = none ∧
    post_detail_lookup (demoStore.filter (fun q => !decide (detailMatch 2024 1 1 "p3" q)))
      2024 1 1 "p3" = none :=
  post_detail_draft_not_found demoStore 2024 1 1 "p3" A3 (by decide) (by decide) rfl
    (by decide)

/-! ### C5: comment persistence requires a Published owner and valid fields -/

/-- C5: the comment view persists a comment only when the owning post
exists with status Published and the submitted fields validate.  An unknown
or Draft post id yields NotFound with the store unchanged; an invalid
submission leaves the store unchanged; and whenever a comment is created,
its form was valid, its owning post is a Published post of the store with
the requested id, the comment carries that post's id, and the new store is
the old one with exactly that comment appended. -/
theorem post_comment_safe (emailOk : String → Bool) (st : Store) (postId : Nat)
    (d : CommentData) :
    ((¬ ∃ p, p ∈ st.posts ∧ p.id = postId ∧ p.status = Status.published) →
      post_comment emailOk st postId d = (.notFound, st)) ∧
    (commentFormValid emailOk d = false →
      (post_comment emailOk st postId d).2 = st) ∧
    (∀ c, (post_comment emailOk st postId d).1 = .created c →
      commentFormValid emailOk d = true ∧
      (∃ p, p ∈ st.posts ∧ p.id = postId ∧ p.status = Status.published ∧
        c.post_id = p.id) ∧
      (post_comment emailOk st postId d).2.posts = st.posts ∧
      (post_comment emailOk st postId d).2.comments = st.comments ++ [c]) := by
  rcases hf : st.posts.find?
      (fun p => decide (p.id = postId ∧ p.status = Status.published)) with _ | post
  · have heq : post_comment emailOk st postId d = (.notFound, st) := by
      unfold post_comment
      rw [hf]
    refine ⟨fun _ => heq, fun _ => by rw [heq], fun c hc => ?_⟩
    rw [heq] at hc
    cases hc
  · have h0 := List.find?_some hf
    have hpost : post.id = postId ∧ post.status = Status.published :=
      of_decide_eq_true h0
    have hmem : post ∈ st.posts := List.mem_of_find?_eq_some hf
    by_cases hv : commentFormValid emailOk d = true
    · have heq : post_comment emailOk st postId d =
          (.created ⟨post.id, strip d.name, strip d.email, strip d.body, true⟩,
            { st with comments :=
                st.comments ++ [⟨post.id, strip d.name, strip d.email, strip d.body, true⟩] }) := by
        unfold post_comment
        rw [hf]
        exact if_pos hv
      refine ⟨fun hne => absurd ⟨post, hmem, hpost⟩ hne, fun hvf => ?_, fun c hc => ?_⟩
      · rw [hv] at hvf
        cases hvf
      · rw [heq] at hc
        cases hc
        exact ⟨hv, ⟨post, hmem, hpost.1, hpost.2, rfl⟩, by rw [heq], by rw [heq]⟩
    · have heq : post_comment emailOk st postId d = (.invalid, st) := by
        unfold post_comment
        rw [hf]
        exact if_neg hv
      refine ⟨fun hne => absurd ⟨post, hmem, hpost⟩ hne, fun _ => by rw [heq], fun c hc => ?_⟩
      rw [heq] at hc
      cases hc

/-- A concrete email predicate standing in for Django's `EmailField`
validator in the witnesses. -/
def demoEmailOk (s : String) : Bool := s == "ann@example.com"

/-- A valid concrete comment submission. -/
def demoGoodComment : CommentData :=
  { name := "Ann", email := "ann@example.com", body := "nice post" }

/-- The store of the comment witnesses: the demonstration posts and no
comments yet. -/
def demoCommentStore : Store := { posts := demoStore, comments := [] }

/-- Witness for C5: submitting a valid comment against the Published post
`A1` (id 1) creates a comment owned by post 1 and appends exactly it;
the hypothesis of the third conjunct is discharged by evaluation. -/
theorem post_comment_safe_witness :
    commentFormValid demoEmailOk demoGoodComment = true ∧
    (∃ p, p ∈ demoCommentStore.posts ∧ p.id = 1 ∧ p.status = Status.published ∧
      (Comment.mk 1 "Ann" "ann@example.com" "nice post" true).post_id = p.id) ∧
    (post_comment demoEmailOk demoCommentStore 1 demoGoodComment).2.posts
      = demoCommentStore.posts ∧
    (post_comment demoEmailOk demoCommentStore 1 demoGoodComment).2.comments
      = demoCommentStore.comments ++ [Comment.mk 1 "Ann" "ann@example.com" "nice post" true] :=
  (post_comment_safe demoEmailOk demoCommentStore 1 demoGoodComment).2.2
    (Comment.mk 1 "Ann" "ann@example.com" "nice post" true) (by decide)

/-! ### C8: the syndication feed -/

/-- C8: the feed document is titled "My blog"; its items are the five most
recently published visible posts in descending publish order — all of the
visible posts, in that order, when fewer than five exist; every excluded
visible post is no more recent than any included one; and each item exposes
the post title, the markdown body rendered to HTML and word-truncated at a
30-word boundary by the HTML-tag-safe truncation, and the post's publish
timestamp. -/
theorem latest_posts_feed_spec (store : List Post) (render : String → String)
    (trunc : String → Nat → String) :
    feedTitle = "My blog" ∧
    (feedItems store).length = min 5 (get_queryset store).length ∧
    (∀ p ∈ feedItems store, p ∈ store ∧ p.status = Status.published) ∧
    List.Sorted pubDescRel (feedItems store) ∧
    (∀ p, p ∈ get_queryset store → p ∉ feedItems store →
      ∀ q ∈ feedItems store, DateTime.le p.publish q.publish) ∧
    ((get_queryset store).length ≤ 5 → feedItems store = publishedAll store) ∧
    (∀ p, feedItemTitle p = p.title ∧
      feedItemDescription render trunc p = trunc (render p.body) 30 ∧
      feedItemPubdate p = p.publish) := by
  have hperm : (publishedAll store).length = (get_queryset store).length :=
    (List.perm_insertionSort pubDescRel (get_queryset store)).length_eq
  have hsorted : List.Sorted pubDescRel (publishedAll store) :=
    List.sorted_insertionSort pubDescRel (get_queryset store)
  refine ⟨rfl, ?_, ?_, ?_, ?_, ?_, fun p => ⟨rfl, rfl, rfl⟩⟩
  · rw [feedItems, List.length_take, hperm]
  · intro p hp
    exact mem_get_queryset.mp (mem_publishedAll.mp (List.take_subset 5 _ hp))
  · exact hsorted.sublist (List.take_sublist 5 (publishedAll store))
  · intro p hp hnp q hq
    have hpL : p ∈ publishedAll store := mem_publishedAll.mpr hp
    have hdrop : p ∈ (publishedAll store).drop 5 := by
      rcases (List.mem_append.mp
          ((List.take_append_drop 5 (publishedAll store)).symm ▸ hpL)) with h | h
      · exact absurd h hnp
      · exact h
    have hpw : List.Pairwise pubDescRel
        ((publishedAll store).take 5 ++ (publishedAll store).drop 5) := by
      rw [List.take_append_drop]
      exact hsorted
    exact (List.pairwise_append.mp hpw).2.2 q hq p hdrop
  · intro hle
    rw [feedItems]
    exact List.take_of_length_le (by rw [hperm]; exact hle)

/-- Witness for C8: on the demonstration store (two visible posts), the
feed items are exactly the visible posts in descending publish order, and
the title is "My blog"; the length hypothesis of the sixth conjunct is
discharged by evaluation. -/
theorem latest_posts_feed_spec_witness :
    feedItems demoStore = publishedAll demoStore ∧ feedTitle = "My blog" :=
  ⟨(latest_posts_feed_spec demoStore id (fun s _ => s)).2.2.2.2.2.1 (by decide),
    (latest_posts_feed_spec demoStore id (fun s _ => s)).1⟩

/-! ### C2: the similar-posts queryset refines the spec's similarTo -/

theorem orderedInsert_congr {α : Type} {r s : α → α → Prop}
    [DecidableRel r] [DecidableRel s] (a : α) (l : List α)
    (h : ∀ b ∈ l, r a b ↔ s a b) :
    List.orderedInsert r a l = List.orderedInsert s a l := by
  induction l with
  | nil => rfl
  | cons b t ih =>
    simp only [List.orderedInsert]
    by_cases hr : r a b
    · rw [if_pos hr, if_pos ((h b (List.mem_cons_self b t)).mp hr)]
    · rw [if_neg hr, if_neg (fun hs => hr ((h b (List.mem_cons_self b t)).mpr hs)),
        ih (fun c hc => h c (List.mem_cons_of_mem b hc))]

theorem insertionSort_congr {α : Type} {r s : α → α → Prop}
    [DecidableRel r] [DecidableRel s] (l : List α)
    (h : ∀ a ∈ l, ∀ b ∈ l, (r a b ↔ s a b)) :
    List.insertionSort r l = List.insertionSort s l := by
  induction l with
  | nil => rfl
  | cons a t ih =>
    simp only [List.insertionSort]
    rw [ih (fun x hx y hy => h x (List.mem_cons_of_mem a hx) y (List.mem_cons_of_mem a hy))]
    apply orderedInsert_congr
    intro b hb
    have hbt : b ∈ t := (List.mem_insertionSort s).mp hb
    exact h a (List.mem_cons_self a t) b (List.mem_cons_of_mem a hbt)

/-- On duplicate-free tag lists, the join-row count `same_tags` of the
source equals the spec's set-intersection size. -/
theorem sameTags_eq_sharedTagCount (a p : Post) (hp : p.tags.Nodup) :
    sameTags a p = sharedTagCount a p := by
  unfold sameTags sharedTagCount
  have h1 : p.tags.filter (fun t => a.tags.contains t)
      = p.tags.filter (fun t => decide (t ∈ a.tags)) := by
    apply List.filter_congr
    intro t _
    simp
  rw [h1]
  have hnd : (p.tags.filter (fun t => decide (t ∈ a.tags))).Nodup :=
    hp.filter _
  rw [← List.toFinset_card_of_nodup hnd, List.toFinset_filter, Finset.inter_comm]
  congr 1
  have h2 : Finset.filter (fun t => decide (t ∈ a.tags) = true) p.tags.toFinset
      = Finset.filter (fun t => t ∈ a.tags.toFinset) p.tags.toFinset := by
    apply Finset.filter_congr
    intro t _
    simp
  exact h2.trans Finset.filter_mem_eq_inter

/-- C2: for every article, the similar-posts queryset of `post_detail`
coincides with the spec's `similarTo`: the visible articles other than the
article itself with non-empty tag intersection, scored by set-intersection
size, sorted by that score descending then by publish date descending, cut
to the first four; and an article with no tags yields the empty result.
The tag lists are duplicate-free (the taggit through table enforces this)
and post ids identify posts (the primary key). -/
theorem similar_posts_correct (store : List Post) (a : Post)
    (_ha : a.tags.Nodup) (hstore : ∀ p ∈ store, p.tags.Nodup)
    (hid : ∀ p ∈ store, p.id = a.id → p = a) :
    similar_posts store a = similarTo store a ∧
    (a.tags = [] → similar_posts store a = []) := by
  constructor
  · unfold similar_posts similarTo
    have hfil : (get_queryset store).filter
        (fun p => p.tags.any (fun t => a.tags.contains t) && !(p.id == a.id)) =
      (get_queryset store).filter
        (fun p => decide (p ≠ a) && decide (sharedTagCount a p ≠ 0)) := by
      apply List.filter_congr
      intro p hp
      have hpstore : p ∈ store := (mem_get_queryset.mp hp).1
      have htag : (p.tags.any (fun t => a.tags.contains t))
          = decide (sharedTagCount a p ≠ 0) := by
        rw [Bool.eq_iff_iff]
        simp only [List.any_eq_true, decide_eq_true_eq]
        constructor
        · rintro ⟨t, ht, hc⟩
          have htm : t ∈ a.tags := by simpa using hc
          exact Finset.card_ne_zero_of_mem
            (Finset.mem_inter.mpr ⟨List.mem_toFinset.mpr htm, List.mem_toFinset.mpr ht⟩)
        · intro hne
          obtain ⟨t, ht⟩ := Finset.card_ne_zero.mp hne
          obtain ⟨ht1, ht2⟩ := Finset.mem_inter.mp ht
          exact ⟨t, List.mem_toFinset.mp ht2, by simpa using List.mem_toFinset.mp ht1⟩
      have hident : (!(p.id == a.id)) = decide (p ≠ a) := by
        by_cases hpa : p = a
        · simp [hpa]
        · have hne : p.id ≠ a.id := fun h => hpa (hid p hpstore h)
          simp [hpa, hne]
      rw [htag, hident, Bool.and_comm]
    rw [hfil]
    congr 1
    apply insertionSort_congr
    intro p hp q hq
    have hkey : ∀ x, x ∈ (get_queryset store).filter
        (fun p => decide (p ≠ a) && decide (sharedTagCount a p ≠ 0)) →
        simKey a x = specSimKey a x := by
      intro x hx
      unfold simKey specSimKey
      rw [sameTags_eq_sharedTagCount a x
        (hstore x (mem_get_queryset.mp (List.mem_of_mem_filter hx)).1)]
    unfold simRel specSimRel
    rw [hkey p hp, hkey q hq]
  · intro h0
    unfold similar_posts
    have hnil : (get_queryset store).filter
        (fun p => p.tags.any (fun t => a.tags.contains t) && !(p.id == a.id)) = [] := by
      apply List.filter_eq_nil_iff.mpr
      intro p _
      rw [h0]
      simp
    rw [hnil]
    rfl

/-- Witness for C2: in the demonstration store the similar posts of `A1`
(tags 1 and 2) agree with the spec's similarTo, and reproduce the spec's
scenario: exactly the post with id 2 (the draft `A3` is excluded, `A2`
shares tag 1). -/
theorem similar_posts_correct_witness :
    similar_posts demoStore A1 = similarTo demoStore A1 ∧
    (similar_posts demoStore A1).map Post.id = [2] :=
  ⟨(similar_posts_correct demoStore A1 (by decide) (by decide) (by decide)).1,
    by decide⟩

end Blog
